import Mathlib

/-!
Verification development for the R&D tickets dashboard repository.

The repository is a Python/pandas/streamlit application.  This file gives a
shallow embedding of its data-processing core into Lean 4:

* tables (`DataFrame`) are ordered column-name lists together with ordered
  rows of nullable string cells (`Option String`, `none` playing the role of
  pandas `NaN`);
* the pure data operations of `src/components/filters.py`,
  `src/components/local_chat.py`, `src/app.py`, `src/components/charts.py`
  and `src/components/data_loader.py` are translated function by function;
* Python exceptions are modelled with `Except`, and the network is modelled
  by an environment record fixing the outcome of every call site;
* Python string operations are modelled for ASCII data (`str.lower`,
  `str.strip`, substring `in`), and `pd.to_datetime(..., errors="coerce")`
  is modelled on ISO `YYYY-MM-DD` strings, every other value parsing to
  `none` (`NaT`).
-/

/-- Model of Python `str.lower` for ASCII characters. -/
def lowerAsciiChar (c : Char) : Char :=
  if 'A' ≤ c ∧ c ≤ 'Z' then Char.ofNat (c.toNat + 32) else c

/-- Model of Python `str.lower` (ASCII). -/
def pyLower (s : String) : String :=
  String.mk (s.data.map lowerAsciiChar)

/-- Whitespace characters stripped by Python `str.strip` (common ASCII subset). -/
def isSpaceChar (c : Char) : Bool :=
  c == ' ' || c == '\t' || c == '\n' || c == '\r'

/-- Model of Python `str.strip`. -/
def pyStrip (s : String) : String :=
  String.mk (((s.data.dropWhile isSpaceChar).reverse.dropWhile isSpaceChar).reverse)

/-- A cell of a table: `none` models pandas `NaN`. -/
abbrev Cell := Option String

/-- Model of pandas `.astype(str)` on one cell: `NaN` prints as `"nan"`. -/
def astypeStr (v : Cell) : String :=
  match v with
  | none => "nan"
  | some s => s

/-- Model of pandas `.fillna("")` on one cell. -/
def fillnaEmpty (v : Cell) : String :=
  match v with
  | none => ""
  | some s => s

/-- Does `hay` start with `ns`? (helper for the substring test). -/
def charsStartWith : List Char → List Char → Bool
  | [], _ => true
  | _ :: _, [] => false
  | n :: ns, h :: hs => n == h && charsStartWith ns hs

/-- Is `ns` a contiguous sublist of `hay`? (helper for the substring test). -/
def charsHaveSub : List Char → List Char → Bool
  | ns, [] => ns.isEmpty
  | ns, h :: hs => charsStartWith ns (h :: hs) || charsHaveSub ns hs

/-- Model of the Python substring operator `needle in hay` on strings. -/
def containsSubB (needle hay : String) : Bool :=
  charsHaveSub needle.data hay.data

/-- `any(word in q for word in words)`: the trigger test of the query engine. -/
def anyTrigger (q : String) (words : List String) : Bool :=
  words.any (fun w => containsSubB w q)

/-- Digit list to number (helper for the date parser). -/
def digitsToNat (l : List Char) : Nat :=
  l.foldl (fun acc c => acc * 10 + (c.toNat - '0'.toNat)) 0

/-- Model of `pd.to_datetime(s, errors="coerce")` on one string cell,
for ISO `YYYY-MM-DD` values; any other shape yields `none` (`NaT`).
A date is encoded as `y*10000 + m*100 + d`, which orders dates exactly
as the calendar does. -/
def parseDate (s : String) : Option Nat :=
  match s.data with
  | [y1, y2, y3, y4, '-', m1, m2, '-', d1, d2] =>
    if ([y1, y2, y3, y4, m1, m2, d1, d2].all Char.isDigit) then
      let y := digitsToNat [y1, y2, y3, y4]
      let m := digitsToNat [m1, m2]
      let d := digitsToNat [d1, d2]
      if 1 ≤ m ∧ m ≤ 12 ∧ 1 ≤ d ∧ d ≤ 31 then some (y * 10000 + m * 100 + d)
      else none
    else none
  | _ => none

/-- Date parsing of one cell: `NaN` parses to `NaT`. -/
def parseCell (v : Cell) : Option Nat :=
  match v with
  | none => none
  | some s => parseDate s

/-- A pandas `DataFrame`: ordered column names and ordered rows of cells.
Rows are rectangular in pandas; a missing position reads as `NaN` here. -/
structure DataFrame where
  cols : List String
  rows : List (List Cell)
deriving DecidableEq, Repr

/-- The cell of row `r` in the column named `c` (first column of that name). -/
def cellOf (cols : List String) (r : List Cell) (c : String) : Cell :=
  match cols.findIdx? (fun x => x == c) with
  | some i => (r.get? i).getD none
  | none => none

/-- The column named `c` of a data frame, as pandas `df[c]`. -/
def DataFrame.getCol (df : DataFrame) (c : String) : List Cell :=
  df.rows.map (fun r => cellOf df.cols r c)

/-!
## Filter composer — `src/components/filters.py`, `apply_dataframe_filters`
-/

/-- Status column resolution of `apply_dataframe_filters`:
`"Status" if "Status" in out.columns else ("status" if "status" in out.columns else None)`. -/
def findStatusColFilters (cols : List String) : Option String :=
  if cols.contains "Status" then some "Status"
  else if cols.contains "status" then some "status"
  else none

/-- Summary-like columns: name contains `"summary"` or `"description"` (lower-cased). -/
def summaryColsOf (cols : List String) : List String :=
  cols.filter (fun c => containsSubB "summary" (pyLower c) || containsSubB "description" (pyLower c))

/-- Client/keyword-like columns: name contains one of
`client`, `customer`, `account`, `keyword`, `tag`. -/
def clientColsOf (cols : List String) : List String :=
  cols.filter (fun c =>
    (["client", "customer", "account", "keyword", "tag"] : List String).any
      (fun k => containsSubB k (pyLower c)))

/-- Date column resolution of the date-range stage: prefer a column whose name
contains `"created"`; otherwise any column whose name contains `"date"` or whose
lower-cased name is `"start"` or `"end"`; take the first such column. -/
def resolveDateCol (cols : List String) : Option String :=
  let created := cols.filter (fun c => containsSubB "created" (pyLower c))
  let dcols :=
    if created.isEmpty then
      cols.filter (fun c =>
        containsSubB "date" (pyLower c) || pyLower c == "start" || pyLower c == "end")
    else created
  dcols.head?

/-- Status stage of `apply_dataframe_filters`: keep rows whose status cell, as a
string, is in `status_pick`; skipped for an empty pick or a missing column. -/
def statusStage (df : DataFrame) (status_pick : List String) : DataFrame :=
  if status_pick.isEmpty then df
  else
    match findStatusColFilters df.cols with
    | none => df
    | some col =>
      ⟨df.cols, df.rows.filter (fun r => status_pick.contains (astypeStr (cellOf df.cols r col)))⟩

/-- Keyword stage: OR-mask over summary columns and client-like columns; a row is
kept when any picked keyword is a case-insensitive substring of any such cell. -/
def keywordStage (df : DataFrame) (keyword_pick : List String) : DataFrame :=
  if keyword_pick.isEmpty then df
  else
    let scols := summaryColsOf df.cols
    let ccols := clientColsOf df.cols
    ⟨df.cols, df.rows.filter (fun r =>
      scols.any (fun c =>
        keyword_pick.any (fun kp =>
          containsSubB (pyLower kp) (pyLower (fillnaEmpty (cellOf df.cols r c))))) ||
      ccols.any (fun c =>
        keyword_pick.any (fun kp =>
          containsSubB (pyLower kp) (pyLower (fillnaEmpty (cellOf df.cols r c))))))⟩

/-- Date-range stage: parse the resolved date column with
`pd.to_datetime(errors="coerce")` and keep rows with `start ≤ date` (when a start
is given) then `date ≤ end` (when an end is given); `NaT` compares false. -/
def dateStage (df : DataFrame) (dr : Option Nat × Option Nat) : DataFrame :=
  if dr.1.isNone && dr.2.isNone then df
  else
    match resolveDateCol df.cols with
    | none => df
    | some dc =>
      let rows1 :=
        match dr.1 with
        | some start =>
          df.rows.filter (fun r =>
            match parseCell (cellOf df.cols r dc) with
            | some d => decide (start ≤ d)
            | none => false)
        | none => df.rows
      let rows2 :=
        match dr.2 with
        | some en =>
          rows1.filter (fun r =>
            match parseCell (cellOf df.cols r dc) with
            | some d => decide (d ≤ en)
            | none => false)
        | none => rows1
      ⟨df.cols, rows2⟩

/-- Free-text query stage: keep rows where the lower-cased stripped query occurs
in the string form of any cell of the row. -/
def queryStage (df : DataFrame) (query : String) : DataFrame :=
  if query == "" || pyStrip query == "" then df
  else
    let q := pyLower (pyStrip query)
    ⟨df.cols, df.rows.filter (fun r =>
      r.any (fun v => containsSubB q (pyLower (astypeStr v))))⟩

/-- `apply_dataframe_filters(df, status_pick, keyword_pick, query, date_range)`
from `src/components/filters.py`: the four stages applied in source order.
`df.copy()` makes the Python function non-mutating, which the pure embedding
reflects by construction. -/
def apply_dataframe_filters (df : DataFrame) (status_pick keyword_pick : List String)
    (query : String) (date_range : Option Nat × Option Nat) : DataFrame :=
  queryStage (dateStage (keywordStage (statusStage df status_pick) keyword_pick) date_range) query

/-!
## Status buckets — `src/app.py` `kpi_area`, `src/components/local_chat.py`,
## `src/components/charts.py` `chart_progress_funnel`
-/

/-- Accepted values of the `active` bucket. -/
def activeList : List String := ["active", "ongoing"]

/-- Accepted values of the `in-progress` bucket. -/
def inProgressList : List String := ["in progress", "in-progress", "inprogress"]

/-- Accepted values of the `completed` bucket. -/
def completedList : List String := ["done", "completed", "closed", "finished"]

/-- Accepted values of the `pending` bucket. -/
def pendingList : List String := ["pending", "backlog", "todo", "paused", "blocked"]

/-- `kpi_area`'s normalization of a status cell:
`.astype(str).str.strip()` then `.str.lower()`. -/
def kpiNormalize (v : Cell) : String :=
  pyLower (pyStrip (astypeStr v))

/-- Bucket count as `kpi_area` computes it: normalized membership (`isin`). -/
def kpiBucketCount (bucket : List String) (vals : List Cell) : Nat :=
  vals.countP (fun v => bucket.contains (kpiNormalize v))

/-- Bucket count as `analyze_data_for_chat` computes it:
`.astype(str).str.lower().isin(bucket)` — note: no strip. -/
def lcBucketCount (bucket : List String) (vals : List Cell) : Nat :=
  vals.countP (fun v => bucket.contains (pyLower (astypeStr v)))

/-- `kpi_area`'s status-column resolution: first column whose lower-cased name
equals `"status"` (the loop breaks at the first hit). -/
def kpiStatusCol (cols : List String) : Option String :=
  cols.find? (fun c => pyLower c == "status")

/-- The counts computed by `kpi_area` in `src/app.py`. -/
structure KpiCounts where
  total : Nat
  active : Nat
  inProgress : Nat
  completed : Nat
  pending : Nat
deriving DecidableEq, Repr

/-- `kpi_area(df)` of `src/app.py`: total row count and the four bucket counts
over the resolved status column (all zero when no column resolves). -/
def kpi_area (df : DataFrame) : KpiCounts :=
  let total := df.rows.length
  match kpiStatusCol df.cols with
  | none => ⟨total, 0, 0, 0, 0⟩
  | some c =>
    let vals := df.getCol c
    ⟨total,
     kpiBucketCount activeList vals,
     kpiBucketCount inProgressList vals,
     kpiBucketCount completedList vals,
     kpiBucketCount pendingList vals⟩

/-- The `status_map` dictionary of `chart_progress_funnel` in
`src/components/charts.py`. -/
def funnelStatusMap : List (String × String) :=
  [("pending", "Pending"), ("backlog", "Pending"), ("todo", "Pending"),
   ("in progress", "In Progress"), ("in-progress", "In Progress"),
   ("inprogress", "In Progress"),
   ("active", "Active"),
   ("completed", "Completed"), ("done", "Completed"), ("closed", "Completed")]

/-- `chart_progress_funnel`'s classification of one status cell:
`.astype(str).str.lower().map(status_map).fillna("Other")`. -/
def funnelCategory (v : Cell) : String :=
  match funnelStatusMap.lookup (pyLower (astypeStr v)) with
  | some cat => cat
  | none => "Other"

/-- Number of tickets `chart_progress_funnel` places in a given funnel stage
(zero when no status column resolves — the chart bails out with a message). -/
def funnelStageCount (df : DataFrame) (stage : String) : Nat :=
  match kpiStatusCol df.cols with
  | none => 0
  | some c => (df.getCol c).countP (fun v => funnelCategory v == stage)

/-!
## Column-role inference — `src/components/local_chat.py` lines 19–30 and
## `src/components/charts.py` `chart_created_vs_due_date` lines 94–103
-/

/-- The five single-valued roles resolved by `analyze_data_for_chat`. -/
structure RelCols where
  status : Option String
  assignee : Option String
  priority : Option String
  created : Option String
  due : Option String
deriving DecidableEq, Repr

/-- One iteration of the column loop of `analyze_data_for_chat`: an
`if/elif` chain on the lower-cased column name, assigning without any
`is None` guard — a later match overwrites an earlier one. -/
def relStep (acc : RelCols) (col : String) : RelCols :=
  if pyLower col == "status" then ⟨some col, acc.assignee, acc.priority, acc.created, acc.due⟩
  else if pyLower col == "assignee" then ⟨acc.status, some col, acc.priority, acc.created, acc.due⟩
  else if containsSubB "priority" (pyLower col) || containsSubB "severity" (pyLower col) then
    ⟨acc.status, acc.assignee, some col, acc.created, acc.due⟩
  else if containsSubB "created" (pyLower col) then
    ⟨acc.status, acc.assignee, acc.priority, some col, acc.due⟩
  else if containsSubB "due" (pyLower col) then
    ⟨acc.status, acc.assignee, acc.priority, acc.created, some col⟩
  else acc

/-- The column loop of `analyze_data_for_chat` over the column list. -/
def findRelevantColumnsAux : RelCols → List String → RelCols
  | acc, [] => acc
  | acc, c :: cs => findRelevantColumnsAux (relStep acc c) cs

/-- Column-role inference of `analyze_data_for_chat` (lines 19–30). -/
def findRelevantColumns (cols : List String) : RelCols :=
  findRelevantColumnsAux ⟨none, none, none, none, none⟩ cols

/-- The created/due pair resolved by `chart_created_vs_due_date`. -/
structure ChartDateCols where
  created : Option String
  due : Option String
deriving DecidableEq, Repr

/-- The second `if` of the column loop of `chart_created_vs_due_date`. -/
def chartDateStepDue (acc1 : ChartDateCols) (col : String) : ChartDateCols :=
  if containsSubB "due" (pyLower col) && acc1.due.isNone then ⟨acc1.created, some col⟩ else acc1

/-- One iteration of the column loop of `chart_created_vs_due_date`: two
independent `if`s, each guarded by `... is None`, so the first match wins. -/
def chartDateStep (acc : ChartDateCols) (col : String) : ChartDateCols :=
  chartDateStepDue
    (if containsSubB "created" (pyLower col) && acc.created.isNone then ⟨some col, acc.due⟩ else acc)
    col

/-- The column loop of `chart_created_vs_due_date` over the column list. -/
def chartDateColsAux : ChartDateCols → List String → ChartDateCols
  | acc, [] => acc
  | acc, c :: cs => chartDateColsAux (chartDateStep acc c) cs

/-- Created/due column resolution of `chart_created_vs_due_date` (lines 94–103). -/
def chart_created_vs_due_date_cols (cols : List String) : ChartDateCols :=
  chartDateColsAux ⟨none, none⟩ cols

/-- Spec-side notion: the last element of the list satisfying `p`. -/
def lastMatch? (p : String → Bool) : List String → Option String
  | [] => none
  | c :: cs =>
    match lastMatch? p cs with
    | some v => some v
    | none => if p c then some c else none

/-!
## Rule-based query engine — `src/components/local_chat.py`,
## `analyze_data_for_chat`

Python exceptions are modelled with `Except String`: the one fallible
operation in this function is float division, embedded as `pyDiv`, which
errors on a zero denominator exactly as Python raises `ZeroDivisionError`.
Percentages are computed in `ℚ` (an exact model of the float arithmetic used
here) and rendered by `fmtPct`, a model of the `:.1f` format.
-/

/-- Python float division, raising on a zero denominator. -/
def pyDiv (a b : Nat) : Except String ℚ :=
  if b == 0 then Except.error "ZeroDivisionError: division by zero"
  else Except.ok ((a : ℚ) / (b : ℚ))

/-- Model of Python's `:.1f` rendering of a (nonnegative) percentage. -/
def fmtPct (q : ℚ) : String :=
  let t : ℤ := ⌊q * 10 + 1 / 2⌋
  toString (t / 10) ++ "." ++ toString (t % 10)

/-- First-occurrence deduplication (helper for `valueCounts`). -/
def dedupFirstAux : List String → List String → List String
  | _, [] => []
  | seen, x :: xs =>
    if seen.contains x then dedupFirstAux seen xs
    else x :: dedupFirstAux (x :: seen) xs

/-- Stable descending insertion by count (helper for `valueCounts`). -/
def insertByCountDesc (p : String × Nat) : List (String × Nat) → List (String × Nat)
  | [] => [p]
  | q :: qs => if p.2 ≤ q.2 then q :: insertByCountDesc p qs else p :: q :: qs

/-- Stable descending sort by count (helper for `valueCounts`). -/
def sortByCountDesc : List (String × Nat) → List (String × Nat)
  | [] => []
  | p :: ps => insertByCountDesc p (sortByCountDesc ps)

/-- Model of pandas `Series.value_counts()`: drop `NaN`, count each distinct
value, order by descending count. -/
def valueCounts (cells : List Cell) : List (String × Nat) :=
  let vals := cells.filterMap id
  sortByCountDesc ((dedupFirstAux [] vals).map (fun v => (v, vals.count v)))

/-- The count branch of `analyze_data_for_chat`.  `none` models the Python
fall-through: a status sub-keyword matched but no status column resolved, so
no `return` fires inside the branch and control reaches the default answer. -/
def countAnswer (df : DataFrame) (rc : RelCols) (qL : String) (total : Nat) : Option String :=
  if containsSubB "in progress" qL || containsSubB "progress" qL then
    rc.status.map (fun c =>
      "There are **" ++ toString (lcBucketCount inProgressList (df.getCol c)) ++
        "** tickets currently in progress.")
  else if containsSubB "completed" qL || containsSubB "done" qL then
    rc.status.map (fun c =>
      "There are **" ++ toString (lcBucketCount completedList (df.getCol c)) ++
        "** completed tickets.")
  else if containsSubB "pending" qL then
    rc.status.map (fun c =>
      "There are **" ++ toString (lcBucketCount pendingList (df.getCol c)) ++
        "** pending tickets.")
  else if containsSubB "active" qL then
    rc.status.map (fun c =>
      "There are **" ++ toString (lcBucketCount activeList (df.getCol c)) ++
        "** active tickets.")
  else if containsSubB "blocked" qL then
    rc.status.map (fun c =>
      "There are **" ++ toString (lcBucketCount ["blocked"] (df.getCol c)) ++
        "** blocked tickets.")
  else some ("There are **" ++ toString total ++ "** tickets in total.")

/-- The assignee branch of `analyze_data_for_chat`. -/
def assigneeAnswer (df : DataFrame) (rc : RelCols) : String :=
  match rc.assignee with
  | none => "Assignee column not found in the data."
  | some c =>
    let top := (valueCounts (df.getCol c)).take 5
    if top.length > 0 then
      top.foldl (fun acc p => acc ++ "- **" ++ p.1 ++ "**: " ++ toString p.2 ++ " tickets\n")
        "Top assignees:\n"
    else "No assignee information available."

/-- One line of the status-distribution answer, with the percentage division
guarded by `total > 0` exactly as in the source. -/
def statusLine (total : Nat) (p : String × Nat) : Except String String := do
  let pct ← if total > 0 then do
      let d ← pyDiv p.2 total
      pure (d * 100)
    else pure 0
  pure ("- **" ++ p.1 ++ "**: " ++ toString p.2 ++ " (" ++ fmtPct pct ++ "%)\n")

/-- The loop of the status-distribution branch. -/
def statusLines (total : Nat) : List (String × Nat) → Except String String
  | [] => pure ""
  | p :: ps => do
    let l ← statusLine total p
    let rest ← statusLines total ps
    pure (l ++ rest)

/-- The status-distribution branch of `analyze_data_for_chat`. -/
def statusAnswer (df : DataFrame) (rc : RelCols) (total : Nat) : Except String String :=
  match rc.status with
  | none => pure "Status column not found."
  | some c => do
    let body ← statusLines total (valueCounts (df.getCol c))
    pure ("Status distribution:\n" ++ body)

/-- The priority branch of `analyze_data_for_chat`. -/
def priorityAnswer (df : DataFrame) (rc : RelCols) : String :=
  match rc.priority with
  | none => "Priority column not found in the data."
  | some c =>
    (valueCounts (df.getCol c)).foldl
      (fun acc p => acc ++ "- **" ++ p.1 ++ "**: " ++ toString p.2 ++ " tickets\n")
      "Priority breakdown:\n"

/-- The overdue branch of `analyze_data_for_chat`: requires both a due and a
created column; counts rows whose parsed due date is before `now`. -/
def overdueAnswer (now : Nat) (df : DataFrame) (rc : RelCols) : String :=
  match rc.due, rc.created with
  | some dc, some _ =>
    let overdue := df.rows.countP (fun r =>
      match parseCell (cellOf df.cols r dc) with
      | some d => decide (d < now)
      | none => false)
    if overdue > 0 then
      "There are **" ++ toString overdue ++ "** overdue tickets (past their due date)."
    else "No overdue tickets found."
  | _, _ => "Due date column not found."

/-- One of the three guarded percentage lines of the summary branch. -/
def summaryPctLine (label : String) (count total : Nat) : Except String String :=
  if total > 0 then do
    let d ← pyDiv count total
    pure ("- " ++ label ++ ": **" ++ toString count ++ "** (" ++ fmtPct (d * 100) ++ "%)\n")
  else pure ""

/-- The top-assignee tail of the summary branch (pure, no division). -/
def summaryTopAssignee (df : DataFrame) (asg : Option String) (base : String) : String :=
  match asg with
  | none => base
  | some ac =>
    match (valueCounts (df.getCol ac)).take 1 with
    | p :: _ => base ++ "\nTop assignee: **" ++ p.1 ++ "** with " ++ toString p.2 ++ " tickets"
    | [] => base

/-- The summary branch of `analyze_data_for_chat`. -/
def summaryAnswer (df : DataFrame) (rc : RelCols) (total : Nat) : Except String String :=
  match rc.status with
  | none => pure "Unable to generate summary - status column not found."
  | some c => do
    let vals := df.getCol c
    let ip := lcBucketCount inProgressList vals
    let cm := lcBucketCount completedList vals
    let pd := lcBucketCount pendingList vals
    let l1 ← summaryPctLine "In Progress" ip total
    let l2 ← summaryPctLine "Completed" cm total
    let l3 ← summaryPctLine "Pending" pd total
    pure (summaryTopAssignee df rc.assignee
      ("**Dashboard Summary:**\n\n" ++ "Total tickets: **" ++ toString total ++ "**\n" ++
        l1 ++ l2 ++ l3))

/-- The static help answer. -/
def helpAnswer : String :=
  "**I can answer questions about:**\n" ++
  "- How many tickets (total, in progress, completed, pending, blocked)\n" ++
  "- Status distribution\n- Assignee information\n- Priority breakdown\n" ++
  "- Overdue tickets\n- Summary and insights\n\n" ++
  "Try asking: \"How many tickets are in progress?\" or \"Who has the most tickets?\" " ++
  "or \"Show me a summary\"\n"

/-- The default answer returned when no intent matches (or when the count
branch falls through). -/
def defaultAnswer (total : Nat) : String :=
  "I can help you analyze the **" ++ toString total ++
  "** tickets in the dashboard. Try asking about:\n- Ticket counts by status\n" ++
  "- Assignee workload\n- Priority distribution\n- Overdue tickets\n- Overall summary\n\n" ++
  "Or type 'help' for more options."

/-- `analyze_data_for_chat(df, question)` of `src/components/local_chat.py`.
`now` stands for `datetime.now()` (used only by the overdue branch); the
result is `Except.ok answer`, with `Except.error` reserved for an uncaught
Python exception — here only an unguarded `ZeroDivisionError` could produce
one. -/
def analyze_data_for_chat (now : Nat) (df : DataFrame) (question : String) :
    Except String String :=
  let qL := pyLower question
  let rc := findRelevantColumns df.cols
  let total := df.rows.length
  if anyTrigger qL ["how many", "count", "total", "number of"] then
    pure ((countAnswer df rc qL total).getD (defaultAnswer total))
  else if anyTrigger qL ["who", "assignee", "assigned", "owner"] then
    pure (assigneeAnswer df rc)
  else if anyTrigger qL ["status", "statuses", "states"] then
    statusAnswer df rc total
  else if anyTrigger qL ["priority", "priorities", "severity"] then
    pure (priorityAnswer df rc)
  else if anyTrigger qL ["overdue", "late", "past due"] then
    pure (overdueAnswer now df rc)
  else if anyTrigger qL ["summary", "overview", "insights"] then
    summaryAnswer df rc total
  else if anyTrigger qL ["help", "what can", "questions"] then
    pure helpAnswer
  else
    pure (defaultAnswer total)

/-!
## Remote table fetcher — `src/components/data_loader.py`

Network calls are modelled by an environment record fixing the outcome of
every call site; Python exceptions are explicit `Except` values, and every
`try/except` of the source is an explicit match on them.  The
`@st.cache_data(ttl=60)` decorator only memoizes `fetch_sheet` and is not
modelled.  `time.time()` is the environment's `now` (epoch seconds).
-/

/-- The Python exceptions that flow through the fetcher. -/
inductive PyErr where
  | httpError (code : Nat)
  | netError
  | parseError
  | importErr
  | runtimeErr
deriving DecidableEq, Repr

/-- The `_demo_df()` dataset of `src/components/data_loader.py`. -/
def demo_df : DataFrame :=
  ⟨["Project", "Status", "Client", "Start", "End"],
   [[some "Orion Compute", some "In Progress", some "Acme", some "2025-07-01", some "2026-02-15"],
    [some "Nova Analytics", some "Pending", some "Globex", some "2025-09-10", some "2026-03-30"],
    [some "Quasar Edge", some "Blocked", some "Initech", some "2025-05-12", some "2026-01-20"],
    [some "Helix Studio", some "Completed", some "Acme", some "2025-01-10", some "2025-12-10"],
    [some "Atlas Sync", some "In Progress", some "Umbrella", some "2025-08-01", some "2026-05-12"]]⟩

/-- Outcomes of every call site reached by `fetch_sheet`. -/
structure FetchEnv where
  /-- Is the `gspread` import available? -/
  gspreadAvailable : Bool
  /-- Outcome of the whole service-account path (`_get_client`, `open_by_key`,
  worksheet selection, `get_all_records`); `ok` includes the `ws is None`
  early return of an empty frame. -/
  serviceOutcome : Except PyErr DataFrame
  /-- `st.secrets.get("sheets", {}).get("gid", 0)` when it resolves. -/
  secretsGid : Option Nat
  /-- Outcome of `requests.get(export_url, timeout=5)`: status code and body,
  or a network exception. -/
  csvExportResp : Except PyErr (Nat × String)
  /-- Outcome of `pd.read_csv` on the export body. -/
  csvParse1 : Except PyErr DataFrame
  /-- Outcome of `requests.get(pub_url, timeout=5)`. -/
  csvPubResp : Except PyErr (Nat × String)
  /-- Outcome of `pd.read_csv` on the published body. -/
  csvParse2 : Except PyErr DataFrame
  /-- `time.time()`, in epoch seconds. -/
  now : Nat
deriving Repr

/-- The body of `fetch_sheet` up to (excluding) its final `except` handler:
service-account path, then CSV export endpoint, then published-CSV endpoint.
An `Except.error` is an exception reaching that handler. -/
def fetch_sheetBody (env : FetchEnv) (spreadsheet_key : String) (gid : Option Nat) :
    Except PyErr (DataFrame × Nat) :=
  let afterService : Option (DataFrame × Nat) :=
    if env.gspreadAvailable then
      match env.serviceOutcome with
      | Except.ok df => some (df, env.now)
      | Except.error _ => none
    else none
  match afterService with
  | some r => Except.ok r
  | none => do
    let gid_val :=
      match gid with
      | some g => g
      | none =>
        match env.secretsGid with
        | some g => g
        | none => 0
    let _export_url := "https://docs.google.com/spreadsheets/d/" ++ spreadsheet_key ++
      "/export?format=csv&gid=" ++ toString gid_val
    let resp ← env.csvExportResp
    if resp.1 == 200 && pyStrip resp.2 != "" then do
      let df ← env.csvParse1
      pure (df, env.now)
    else do
      let _pub_url := "https://docs.google.com/spreadsheets/d/" ++ spreadsheet_key ++
        "/pub?output=csv&gid=" ++ toString gid_val
      let resp2 ← env.csvPubResp
      if 400 ≤ resp2.1 then throw (PyErr.httpError resp2.1)
      else do
        let df ← env.csvParse2
        pure (df, env.now)

/-- `fetch_sheet(spreadsheet_key, gid)`: the body wrapped in its
`except Exception` handler, which returns the demo dataset with the current
time (for HTTP and non-HTTP errors alike). -/
def fetch_sheetE (env : FetchEnv) (spreadsheet_key : String) (gid : Option Nat) :
    Except PyErr (DataFrame × Nat) :=
  match fetch_sheetBody env spreadsheet_key gid with
  | Except.ok r => Except.ok r
  | Except.error _ => Except.ok (demo_df, env.now)

/-- Two-digit decimal rendering (helper for `formatUTC`). -/
def twoDigits (n : Nat) : String :=
  if n < 10 then "0" ++ toString n else toString n

/-- Civil date from days since the Unix epoch (Gregorian calendar),
modelling `time.gmtime`'s date part. -/
def civilFromDays (z : Nat) : Nat × Nat × Nat :=
  let z' := z + 719468
  let era := z' / 146097
  let doe := z' % 146097
  let yoe := (doe - doe / 1460 + doe / 36524 - doe / 146096) / 365
  let y := yoe + era * 400
  let doy := doe - (365 * yoe + yoe / 4 - yoe / 100)
  let mp := (5 * doy + 2) / 153
  let d := doy - (153 * mp + 2) / 5 + 1
  let m := if mp < 10 then mp + 3 else mp - 9
  (if m ≤ 2 then y + 1 else y, m, d)

/-- Model of `time.strftime("%Y-%m-%d %H:%M:%S UTC", time.gmtime(ts))`. -/
def formatUTC (ts : Nat) : String :=
  let ymd := civilFromDays (ts / 86400)
  toString ymd.1 ++ "-" ++ twoDigits ymd.2.1 ++ "-" ++ twoDigits ymd.2.2 ++ " " ++
    twoDigits (ts / 3600 % 24) ++ ":" ++ twoDigits (ts / 60 % 60) ++ ":" ++
    twoDigits (ts % 60) ++ " UTC"

/-- Outcomes of the additional call sites reached by `load_data_with_ui`. -/
structure LoadEnv extends FetchEnv where
  /-- Is the `openpyxl` import available? -/
  openpyxlAvailable : Bool
  /-- Outcome of `_load_published_xlsx` (download, `raise_for_status`,
  `pd.read_excel`). -/
  xlsxOutcome : Except PyErr DataFrame
  /-- `st.secrets["sheets"]["spreadsheet_key"]` when it resolves. -/
  secretsKey : Option String
deriving Repr

/-- Was the published-XLSX path attempted? (`published_url_override` non-blank
and `openpyxl` importable.) -/
def xlsxAttempted (env : LoadEnv) (published_url_override : Option String) : Bool :=
  (match published_url_override with
   | some u => pyStrip u != ""
   | none => false) && env.openpyxlAvailable

/-- The published-XLSX block of `load_data_with_ui`: its `try/except` swallows
every failure (`none` = fall through to the next source). -/
def xlsxStepE (env : LoadEnv) (published_url_override : Option String) :
    Except PyErr (Option (DataFrame × String)) :=
  if xlsxAttempted env published_url_override then
    match env.xlsxOutcome with
    | Except.ok df =>
      Except.ok (if !df.rows.isEmpty then some (df, formatUTC env.now) else none)
    | Except.error _ => Except.ok none
  else Except.ok none

/-- Spreadsheet-key resolution of `load_data_with_ui`: override, then secrets,
then the hardcoded default key. -/
def resolvedKey (env : LoadEnv) (spreadsheet_key_override : Option String) : String :=
  let key0 :=
    match spreadsheet_key_override with
    | some k => k
    | none =>
      match env.secretsKey with
      | some k => k
      | none => ""
  if key0 == "" then "1RbibIdg2iqeoj7Iw0PphfypL7g2eREg4Ee9lgPzkoDU" else key0

/-- The Google-Sheets block of `load_data_with_ui`:
`try: fetch_sheet(...) except: demo`, with the empty-frame fallback to the
demo dataset labelled `"Demo"`. -/
def mainFetchStep (env : LoadEnv) (spreadsheet_key_override : Option String)
    (gid_override : Option Nat) : Except PyErr (DataFrame × String) :=
  match fetch_sheetE env.toFetchEnv (resolvedKey env spreadsheet_key_override) gid_override with
  | Except.ok (df, ts) =>
    if !df.rows.isEmpty then pure (df, formatUTC ts)
    else pure (demo_df, "Demo")
  | Except.error _ => pure (demo_df, "Demo")

/-- `load_data_with_ui(spreadsheet_key_override, gid_override,
published_url_override)` of `src/components/data_loader.py`, with its
`try/except` blocks explicit.  An `Except.error` result would be an uncaught
exception escaping to the caller. -/
def load_data_with_uiE (env : LoadEnv) (spreadsheet_key_override : Option String)
    (gid_override : Option Nat) (published_url_override : Option String) :
    Except PyErr (DataFrame × String) := do
  let x ← xlsxStepE env published_url_override
  match x with
  | some r => pure r
  | none => mainFetchStep env spreadsheet_key_override gid_override

/-- Is an `Except` an error? -/
def Except.isErr : Except ε α → Bool
  | Except.error _ => true
  | Except.ok _ => false

/-- Did the XLSX path succeed with a non-empty frame? -/
def xlsxSucceeded (env : LoadEnv) (published_url_override : Option String) : Bool :=
  xlsxAttempted env published_url_override &&
    (match env.xlsxOutcome with
     | Except.ok df => !df.rows.isEmpty
     | Except.error _ => false)

/-- "All remote fetch strategies fail": the XLSX path yields nothing and the
whole `fetch_sheet` body (service account, CSV export, published CSV) raises. -/
def allStrategiesFail (env : LoadEnv) (published_url_override : Option String) : Bool :=
  !xlsxSucceeded env published_url_override &&
    (fetch_sheetBody env.toFetchEnv "" none).isErr

/-- The table of the C9 scenario: `Created` values 2025-08-15, 2025-10-01,
2025-12-15. -/
def datesTable : DataFrame :=
  ⟨["Project", "Created"],
   [[some "A", some "2025-08-15"], [some "B", some "2025-10-01"],
    [some "C", some "2025-12-15"]]⟩

/-!
## Claim C6 — bucket disjointness and bounded bucket counts
-/

/-- How many of the four buckets a (normalized) status string falls into. -/
def bucketHits (s : String) : Nat :=
  (activeList.contains s).toNat + (inProgressList.contains s).toNat +
    (completedList.contains s).toNat + (pendingList.contains s).toNat

/-- An environment in which every remote strategy fails: `gspread` missing,
both CSV requests raise network errors, XLSX download raises, no secrets. -/
def envFail : LoadEnv :=
  ⟨⟨false, Except.error PyErr.netError, none, Except.error PyErr.netError,
    Except.error PyErr.parseError, Except.error PyErr.netError,
    Except.error PyErr.parseError, 0⟩,
   false, Except.error PyErr.netError, none⟩

/-!
# Theorems
-/

theorem DataFrame.getCol_length (df : DataFrame) (c : String) :
    (df.getCol c).length = df.rows.length := by
  simp [DataFrame.getCol]

example : pyLower "How Many?" = "how many?" := by decide
example : pyStrip "  a b  " = "a b" := by decide
example : containsSubB "in progress" "how many tickets are in progress?" = true := by decide
example : containsSubB "" "x" = true := by decide
example : parseDate "2025-08-15" = some 20250815 := by decide
example : parseDate "hello" = none := by decide

example :
    apply_dataframe_filters ⟨["Status"], [[some "Done"], [some "Open"]]⟩ ["Done"] [] "" (none, none)
      = ⟨["Status"], [[some "Done"]]⟩ := by decide

example : (findRelevantColumns ["Status", "STATUS"]).status = some "STATUS" := by decide
example : (chart_created_vs_due_date_cols ["Created A", "Created B"]).created = some "Created A" := by
  decide
example : (kpi_area ⟨["Status"], [[some "Active"], [some "done"]]⟩).completed = 1 := by decide
example : funnelCategory (some "Blocked") = "Other" := by decide

example :
    analyze_data_for_chat 0 ⟨["Status"], [[some "in progress"], [some "Done"]]⟩
      "How many tickets are in progress?"
      = Except.ok "There are **1** tickets currently in progress." := by rfl

example : formatUTC 0 = "1970-01-01 00:00:00 UTC" := by decide
example : formatUTC 1759276800 = "2025-10-01 00:00:00 UTC" := by decide

/-- `fetch_sheetBody` ignores the key and gid arguments in this model: they
only feed the URL strings, whose outcomes the environment fixes. -/
theorem fetch_sheetBody_key_irrel (env : FetchEnv) (k k' : String) (g g' : Option Nat) :
    fetch_sheetBody env k g = fetch_sheetBody env k' g' := by
  unfold fetch_sheetBody
  cases hg : env.gspreadAvailable <;> cases hs : env.serviceOutcome <;>
    cases hr : env.csvExportResp <;> simp [bind, Except.bind]

/-!
## Helper lemmas about the filter stages
-/

theorem statusStage_cols (df : DataFrame) (sp : List String) :
    (statusStage df sp).cols = df.cols := by
  unfold statusStage
  split
  · rfl
  · split <;> rfl

theorem statusStage_rows_sublist (df : DataFrame) (sp : List String) :
    List.Sublist (statusStage df sp).rows df.rows := by
  unfold statusStage
  split
  · exact List.Sublist.refl _
  · split
    · exact List.Sublist.refl _
    · exact List.filter_sublist _

theorem keywordStage_cols (df : DataFrame) (kp : List String) :
    (keywordStage df kp).cols = df.cols := by
  unfold keywordStage
  split <;> rfl

theorem keywordStage_rows_sublist (df : DataFrame) (kp : List String) :
    List.Sublist (keywordStage df kp).rows df.rows := by
  unfold keywordStage
  split
  · exact List.Sublist.refl _
  · exact List.filter_sublist _

theorem dateStage_cols (df : DataFrame) (dr : Option Nat × Option Nat) :
    (dateStage df dr).cols = df.cols := by
  unfold dateStage
  split
  · rfl
  · split
    · rfl
    · rfl

theorem dateStage_rows_sublist (df : DataFrame) (dr : Option Nat × Option Nat) :
    List.Sublist (dateStage df dr).rows df.rows := by
  obtain ⟨s, e⟩ := dr
  unfold dateStage
  split
  · exact List.Sublist.refl _
  · split
    · exact List.Sublist.refl _
    · cases s <;> cases e
      · exact List.Sublist.refl _
      · exact List.filter_sublist _
      · exact List.filter_sublist _
      · exact (List.filter_sublist _).trans (List.filter_sublist _)

theorem queryStage_cols (df : DataFrame) (q : String) :
    (queryStage df q).cols = df.cols := by
  unfold queryStage
  split <;> rfl

theorem queryStage_rows_sublist (df : DataFrame) (q : String) :
    List.Sublist (queryStage df q).rows df.rows := by
  unfold queryStage
  split
  · exact List.Sublist.refl _
  · exact List.filter_sublist _

/-!
## Claim C1 — filtering with empty criteria is a no-op
-/

/-- C1: for every table, `apply_dataframe_filters` with an empty status pick,
empty keyword pick, empty/blank free-text query and a `(None, None)` date
range returns the table unchanged: same rows, same values, same order. -/
theorem filter_empty_criteria_noop (df : DataFrame) (q : String) (hq : pyStrip q = "") :
    apply_dataframe_filters df [] [] q (none, none) = df := by
  unfold apply_dataframe_filters
  have h1 : statusStage df [] = df := by unfold statusStage; simp
  have h2 : keywordStage df [] = df := by unfold keywordStage; simp
  have h3 : dateStage df (none, none) = df := by unfold dateStage; simp
  rw [h1, h2, h3]
  unfold queryStage
  simp [hq]

/-- C1 witness: a concrete table, empty criteria with a blank query. -/
theorem filter_empty_criteria_noop_witness :
    pyStrip " " = "" ∧
      apply_dataframe_filters
        ⟨["Status", "Summary"], [[some "Open", some "alpha"], [none, some "beta"]]⟩
        [] [] " " (none, none)
      = ⟨["Status", "Summary"], [[some "Open", some "alpha"], [none, some "beta"]]⟩ :=
  ⟨by decide, filter_empty_criteria_noop _ " " (by decide)⟩

/-!
## Claim C2 — every filtered result is a subsequence of the input rows
-/

/-- C2: for every table and every criteria bundle, the filtered table keeps the
input's column list, and its rows form a sublist (order-preserving
subsequence) of the input rows; hence the row count can only shrink and every
output row occurs in the input.  The embedding is a pure function of the input
(the Python source starts from `df.copy()`), so the input table is never
mutated. -/
theorem filter_rows_sublist (df : DataFrame) (sp kp : List String) (q : String)
    (dr : Option Nat × Option Nat) :
    (apply_dataframe_filters df sp kp q dr).cols = df.cols ∧
    List.Sublist (apply_dataframe_filters df sp kp q dr).rows df.rows ∧
    (apply_dataframe_filters df sp kp q dr).rows.length ≤ df.rows.length ∧
    ∀ r ∈ (apply_dataframe_filters df sp kp q dr).rows, r ∈ df.rows := by
  have hsub : List.Sublist (apply_dataframe_filters df sp kp q dr).rows df.rows := by
    unfold apply_dataframe_filters
    exact ((((queryStage_rows_sublist _ q).trans
      (dateStage_rows_sublist _ dr)).trans
      (keywordStage_rows_sublist _ kp)).trans
      (statusStage_rows_sublist df sp))
  refine ⟨?_, hsub, hsub.length_le, fun r hr => hsub.subset hr⟩
  unfold apply_dataframe_filters
  rw [queryStage_cols, dateStage_cols, keywordStage_cols, statusStage_cols]

/-!
## Claim C9 — the date-range stage keeps exactly the in-range rows
-/

/-- C9: with both bounds given (and the other criteria empty), the filter
keeps exactly the rows whose parsed date in the resolved date column satisfies
`start ≤ date` and `date ≤ end`, both bounds inclusive, and drops rows whose
cell does not parse as a date. -/
theorem date_range_filter_exact (df : DataFrame) (s e : Nat) (dc : String)
    (hdc : resolveDateCol df.cols = some dc) :
    (apply_dataframe_filters df [] [] "" (some s, some e)).rows
      = df.rows.filter (fun r =>
          match parseCell (cellOf df.cols r dc) with
          | some d => decide (s ≤ d) && decide (d ≤ e)
          | none => false) := by
  unfold apply_dataframe_filters
  have h1 : statusStage df [] = df := by unfold statusStage; simp
  have h2 : keywordStage df [] = df := by unfold keywordStage; simp
  have hq : ∀ d : DataFrame, queryStage d "" = d := by
    intro d; unfold queryStage; simp
  rw [h1, h2, hq]
  unfold dateStage
  simp only [hdc, Option.isNone_some, Bool.and_self, Bool.false_and, if_false]
  rw [List.filter_filter]
  apply List.filter_congr
  intro r _
  cases parseCell (cellOf df.cols r dc) with
  | none => rfl
  | some d => exact Bool.and_comm _ _

/-- C9 witness: start 2025-09-01 and end 2025-12-01 keep only the 2025-10-01
row. -/
theorem date_range_filter_exact_witness :
    resolveDateCol datesTable.cols = some "Created" ∧
    (apply_dataframe_filters datesTable [] [] "" (some 20250901, some 20251201)).rows
      = [[some "B", some "2025-10-01"]] := by
  refine ⟨by decide, ?_⟩
  rw [date_range_filter_exact datesTable 20250901 20251201 "Created" (by decide)]
  decide

/-!
## Claim C5 — which matching column does role inference pick?
-/

theorem relStep_status (acc : RelCols) (col : String) :
    (relStep acc col).status = if pyLower col == "status" then some col else acc.status := by
  unfold relStep
  split_ifs <;> rfl

/-- A column whose lower-cased name is exactly `"status"` matches no other
role's name test. -/
theorem status_name_excl (col : String) (h : (pyLower col == "status") = true) :
    (pyLower col == "assignee") = false ∧
    containsSubB "priority" (pyLower col) = false ∧
    containsSubB "severity" (pyLower col) = false ∧
    containsSubB "created" (pyLower col) = false ∧
    containsSubB "due" (pyLower col) = false := by
  rw [eq_of_beq h]
  decide

/-- A column whose lower-cased name is exactly `"assignee"` matches no later
role's name test. -/
theorem assignee_name_excl (col : String) (h : (pyLower col == "assignee") = true) :
    containsSubB "priority" (pyLower col) = false ∧
    containsSubB "severity" (pyLower col) = false ∧
    containsSubB "created" (pyLower col) = false ∧
    containsSubB "due" (pyLower col) = false := by
  rw [eq_of_beq h]
  decide

theorem relStep_assignee (acc : RelCols) (col : String) :
    (relStep acc col).assignee =
      if pyLower col == "assignee" then some col else acc.assignee := by
  unfold relStep
  by_cases h1 : (pyLower col == "status") = true
  · obtain ⟨e2, -, -, -, -⟩ := status_name_excl col h1
    simp [h1, e2]
  · by_cases h2 : (pyLower col == "assignee") = true
    · simp [h1, h2]
    · rw [if_neg h1, if_neg h2, if_neg h2]
      split_ifs <;> rfl

theorem relStep_priority (acc : RelCols) (col : String) :
    (relStep acc col).priority =
      if containsSubB "priority" (pyLower col) || containsSubB "severity" (pyLower col) then
        some col
      else acc.priority := by
  unfold relStep
  by_cases h1 : (pyLower col == "status") = true
  · obtain ⟨-, e3, e4, -, -⟩ := status_name_excl col h1
    simp [h1, e3, e4]
  · by_cases h2 : (pyLower col == "assignee") = true
    · obtain ⟨f3, f4, -, -⟩ := assignee_name_excl col h2
      simp [h1, h2, f3, f4]
    · by_cases h3 : (containsSubB "priority" (pyLower col)
          || containsSubB "severity" (pyLower col)) = true
      · simp [h1, h2, h3]
      · rw [if_neg h1, if_neg h2, if_neg h3, if_neg h3]
        split_ifs <;> rfl

theorem relStep_created (acc : RelCols) (col : String) :
    (relStep acc col).created =
      if containsSubB "created" (pyLower col)
          && !(containsSubB "priority" (pyLower col) || containsSubB "severity" (pyLower col)) then
        some col
      else acc.created := by
  unfold relStep
  by_cases h1 : (pyLower col == "status") = true
  · obtain ⟨-, -, -, e5, -⟩ := status_name_excl col h1
    simp [h1, e5]
  · by_cases h2 : (pyLower col == "assignee") = true
    · obtain ⟨-, -, f5, -⟩ := assignee_name_excl col h2
      simp [h1, h2, f5]
    · by_cases h3 : (containsSubB "priority" (pyLower col)
          || containsSubB "severity" (pyLower col)) = true
      · simp [h1, h2, h3]
      · by_cases h4 : containsSubB "created" (pyLower col) = true
        · simp [h1, h2, h3, h4]
        · by_cases h5 : containsSubB "due" (pyLower col) = true
          · simp [h1, h2, h3, h4, h5]
          · simp [h1, h2, h3, h4, h5]

theorem relStep_due (acc : RelCols) (col : String) :
    (relStep acc col).due =
      if containsSubB "due" (pyLower col)
          && !containsSubB "created" (pyLower col)
          && !(containsSubB "priority" (pyLower col) || containsSubB "severity" (pyLower col)) then
        some col
      else acc.due := by
  unfold relStep
  by_cases h1 : (pyLower col == "status") = true
  · obtain ⟨-, -, -, -, e6⟩ := status_name_excl col h1
    simp [h1, e6]
  · by_cases h2 : (pyLower col == "assignee") = true
    · obtain ⟨-, -, -, f6⟩ := assignee_name_excl col h2
      simp [h1, h2, f6]
    · by_cases h3 : (containsSubB "priority" (pyLower col)
          || containsSubB "severity" (pyLower col)) = true
      · simp [h1, h2, h3]
      · by_cases h4 : containsSubB "created" (pyLower col) = true
        · simp [h1, h2, h3, h4]
        · by_cases h5 : containsSubB "due" (pyLower col) = true
          · simp [h1, h2, h3, h4, h5]
          · simp [h1, h2, h3, h4, h5]

/-- The column loop of `analyze_data_for_chat`, characterized for any role
field `f` whose per-column update follows predicate `p`: the last column
satisfying `p` wins. -/
theorem findRelevantColumnsAux_last (f : RelCols → Option String) (p : String → Bool)
    (hstep : ∀ acc col, f (relStep acc col) = if p col then some col else f acc)
    (cols : List String) :
    ∀ acc : RelCols,
      f (findRelevantColumnsAux acc cols) =
        match lastMatch? p cols with
        | some v => some v
        | none => f acc := by
  induction cols with
  | nil => intro acc; rfl
  | cons c cs ih =>
    intro acc
    show f (findRelevantColumnsAux (relStep acc c) cs) = _
    rw [ih (relStep acc c), hstep]
    cases h : lastMatch? p cs with
    | some v => simp [lastMatch?, h]
    | none =>
      by_cases hc : p c <;> simp [lastMatch?, h, hc]

theorem findRelevantColumns_field (f : RelCols → Option String) (p : String → Bool)
    (hstep : ∀ acc col, f (relStep acc col) = if p col then some col else f acc)
    (hbase : f ⟨none, none, none, none, none⟩ = none) (cols : List String) :
    f (findRelevantColumns cols) = lastMatch? p cols := by
  rw [show findRelevantColumns cols = findRelevantColumnsAux ⟨none, none, none, none, none⟩ cols
    from rfl]
  rw [findRelevantColumnsAux_last f p hstep cols]
  cases lastMatch? p cols with
  | some v => rfl
  | none => exact hbase

theorem chartDateStepDue_created (acc1 : ChartDateCols) (col : String) :
    (chartDateStepDue acc1 col).created = acc1.created := by
  unfold chartDateStepDue
  split_ifs <;> rfl

theorem chartDateStepDue_due (acc1 : ChartDateCols) (col : String) :
    (chartDateStepDue acc1 col).due =
      if containsSubB "due" (pyLower col) && acc1.due.isNone then some col
      else acc1.due := by
  unfold chartDateStepDue
  split_ifs <;> rfl

theorem chartDateStep_created (acc : ChartDateCols) (col : String) :
    (chartDateStep acc col).created =
      if containsSubB "created" (pyLower col) && acc.created.isNone then some col
      else acc.created := by
  unfold chartDateStep
  rw [chartDateStepDue_created]
  split_ifs <;> rfl

theorem chartDateStep_due (acc : ChartDateCols) (col : String) :
    (chartDateStep acc col).due =
      if containsSubB "due" (pyLower col) && acc.due.isNone then some col
      else acc.due := by
  unfold chartDateStep
  rw [chartDateStepDue_due]
  have h : (if containsSubB "created" (pyLower col) && acc.created.isNone then
      (⟨some col, acc.due⟩ : ChartDateCols) else acc).due = acc.due := by
    split_ifs <;> rfl
  rw [h]

theorem chartDateColsAux_created (cols : List String) :
    ∀ acc : ChartDateCols,
      (chartDateColsAux acc cols).created =
        match acc.created with
        | some v => some v
        | none => cols.find? (fun c => containsSubB "created" (pyLower c)) := by
  induction cols with
  | nil =>
    intro acc
    show acc.created = _
    cases acc.created <;> rfl
  | cons c cs ih =>
    intro acc
    show (chartDateColsAux (chartDateStep acc c) cs).created = _
    rw [ih (chartDateStep acc c), chartDateStep_created]
    cases hac : acc.created with
    | some v => simp
    | none =>
      simp only [Option.isNone_none, Bool.and_true]
      by_cases h : containsSubB "created" (pyLower c)
      · simp [List.find?, h]
      · simp [List.find?, h]

theorem chartDateColsAux_due (cols : List String) :
    ∀ acc : ChartDateCols,
      (chartDateColsAux acc cols).due =
        match acc.due with
        | some v => some v
        | none => cols.find? (fun c => containsSubB "due" (pyLower c)) := by
  induction cols with
  | nil =>
    intro acc
    show acc.due = _
    cases acc.due <;> rfl
  | cons c cs ih =>
    intro acc
    show (chartDateColsAux (chartDateStep acc c) cs).due = _
    rw [ih (chartDateStep acc c), chartDateStep_due]
    cases hac : acc.due with
    | some v => simp
    | none =>
      simp only [Option.isNone_none, Bool.and_true]
      by_cases h : containsSubB "due" (pyLower c)
      · simp [List.find?, h]
      · simp [List.find?, h]

/-- C5 counterexample: on a table whose columns are `["Status", "STATUS"]`,
`analyze_data_for_chat`'s role inference resolves the status role to the
second matching column `"STATUS"`, not to the first match as the claim
states — the loop has no `is None` guard, so a later match overwrites an
earlier one. -/
theorem role_inference_first_match_counterexample :
    (findRelevantColumns ["Status", "STATUS"]).status = some "STATUS" ∧
    (findRelevantColumns ["Status", "STATUS"]).status ≠
      (["Status", "STATUS"] : List String).find? (fun c => pyLower c == "status") := by
  decide

/-- C5 amended: `analyze_data_for_chat`'s role loop walks the columns left to
right through an `if/elif` chain with no `is None` guards, so each role
resolves to the LAST column routed to its branch, a column being routed to
the first role test it matches.  Concretely: `status`, `assignee` and
`priority` resolve to the last column matching their own test (no earlier
test can capture such a column); `created` resolves to the last column
containing `"created"` but neither `"priority"` nor `"severity"`; `due`
resolves to the last column containing `"due"` but none of `"created"`,
`"priority"`, `"severity"` — so a column matching an earlier role's test
(e.g. `"Priority Due"`) counts toward that earlier role only.  By contrast
`chart_created_vs_due_date` resolves created/due to the FIRST column
containing `"created"` / `"due"`.  All of these are pure functions of the
column list, so repeated calls always return the same column. -/
theorem role_inference_last_match (cols : List String) :
    (findRelevantColumns cols).status = lastMatch? (fun c => pyLower c == "status") cols ∧
    (findRelevantColumns cols).assignee = lastMatch? (fun c => pyLower c == "assignee") cols ∧
    (findRelevantColumns cols).priority =
      lastMatch? (fun c => containsSubB "priority" (pyLower c)
        || containsSubB "severity" (pyLower c)) cols ∧
    (findRelevantColumns cols).created =
      lastMatch? (fun c => containsSubB "created" (pyLower c)
        && !(containsSubB "priority" (pyLower c) || containsSubB "severity" (pyLower c))) cols ∧
    (findRelevantColumns cols).due =
      lastMatch? (fun c => containsSubB "due" (pyLower c)
        && !containsSubB "created" (pyLower c)
        && !(containsSubB "priority" (pyLower c) || containsSubB "severity" (pyLower c))) cols ∧
    (chart_created_vs_due_date_cols cols).created =
      cols.find? (fun c => containsSubB "created" (pyLower c)) ∧
    (chart_created_vs_due_date_cols cols).due =
      cols.find? (fun c => containsSubB "due" (pyLower c)) := by
  refine ⟨?_, ?_, ?_, ?_, ?_, ?_, ?_⟩
  · exact findRelevantColumns_field (fun rc => rc.status) _ relStep_status rfl cols
  · exact findRelevantColumns_field (fun rc => rc.assignee) _ relStep_assignee rfl cols
  · exact findRelevantColumns_field (fun rc => rc.priority) _ relStep_priority rfl cols
  · exact findRelevantColumns_field (fun rc => rc.created) _ relStep_created rfl cols
  · exact findRelevantColumns_field (fun rc => rc.due) _ relStep_due rfl cols
  · rw [show chart_created_vs_due_date_cols cols = chartDateColsAux ⟨none, none⟩ cols from rfl]
    rw [chartDateColsAux_created]
  · rw [show chart_created_vs_due_date_cols cols = chartDateColsAux ⟨none, none⟩ cols from rfl]
    rw [chartDateColsAux_due]

example : (findRelevantColumns ["Due Date", "Priority Due"]).due = some "Due Date" := by decide
example : (findRelevantColumns ["Due Date", "Priority Due"]).priority = some "Priority Due" := by
  decide
example : (findRelevantColumns ["Created A", "Created B"]).created = some "Created B" := by decide

theorem bucketHits_le_one (s : String) : bucketHits s ≤ 1 := by
  unfold bucketHits
  cases h1 : activeList.contains s with
  | true =>
    have hm : s ∈ activeList := by simpa using h1
    simp [activeList] at hm
    rcases hm with rfl | rfl <;> decide
  | false =>
    cases h2 : inProgressList.contains s with
    | true =>
      have hm : s ∈ inProgressList := by simpa using h2
      simp [inProgressList] at hm
      rcases hm with rfl | rfl | rfl <;> decide
    | false =>
      cases h3 : completedList.contains s with
      | true =>
        have hm : s ∈ completedList := by simpa using h3
        simp [completedList] at hm
        rcases hm with rfl | rfl | rfl | rfl <;> decide
      | false =>
        cases h4 : pendingList.contains s <;> simp

/-- Four predicates that hit each element at most once in total count at most
the length. -/
theorem countP_four_le {α : Type} (p1 p2 p3 p4 : α → Bool) (l : List α)
    (h : ∀ x, (p1 x).toNat + (p2 x).toNat + (p3 x).toNat + (p4 x).toNat ≤ 1) :
    l.countP p1 + l.countP p2 + l.countP p3 + l.countP p4 ≤ l.length := by
  induction l with
  | nil => simp
  | cons a l ih =>
    have hb : ∀ b : Bool, (if b = true then 1 else 0) = b.toNat := by
      intro b; cases b <;> rfl
    simp only [List.countP_cons, List.length_cons, hb]
    have := h a
    omega

/-- C6: every status string matches at most one of the four buckets; hence in
`kpi_area` the four bucket counts sum to at most the row count; and the
scenario `Status = ["Active", "done", "Pending", "In Progress"]` gives bucket
counts active 1, in-progress 1, completed 1, pending 1 and total 4. -/
theorem status_bucket_disjoint_counts :
    (∀ s : String, bucketHits s ≤ 1) ∧
    (∀ df : DataFrame,
      (kpi_area df).active + (kpi_area df).inProgress + (kpi_area df).completed +
        (kpi_area df).pending ≤ (kpi_area df).total) ∧
    kpi_area ⟨["Status"], [[some "Active"], [some "done"], [some "Pending"], [some "In Progress"]]⟩
      = ⟨4, 1, 1, 1, 1⟩ := by
  refine ⟨bucketHits_le_one, ?_, by decide⟩
  intro df
  unfold kpi_area
  cases hc : kpiStatusCol df.cols with
  | none => simp
  | some c =>
    simp only
    unfold kpiBucketCount
    have hlen := DataFrame.getCol_length df c
    calc (df.getCol c).countP (fun v => activeList.contains (kpiNormalize v)) +
          (df.getCol c).countP (fun v => inProgressList.contains (kpiNormalize v)) +
          (df.getCol c).countP (fun v => completedList.contains (kpiNormalize v)) +
          (df.getCol c).countP (fun v => pendingList.contains (kpiNormalize v))
        ≤ (df.getCol c).length := by
          apply countP_four_le
          intro v
          exact bucketHits_le_one (kpiNormalize v)
      _ = df.rows.length := hlen

/-!
## Claim C7 — do the KPI area, query engine and funnel bucket alike?
-/

/-- C7 counterexample: the three components do NOT agree.  On a table with
`Status = ["Blocked"]`, `kpi_area` counts one pending ticket while the
progress funnel classifies the row as `"Other"` (its map lacks `blocked`,
`paused`, `finished`, `ongoing`); and on `Status = [" done "]`, `kpi_area`
(which strips) counts one completed ticket while the query engine's bucket
test (which does not strip) counts none. -/
theorem bucket_vocab_counterexample :
    (kpi_area ⟨["Status"], [[some "Blocked"]]⟩).pending = 1 ∧
    funnelStageCount ⟨["Status"], [[some "Blocked"]]⟩ "Pending" = 0 ∧
    (kpi_area ⟨["Status"], [[some " done "]]⟩).completed = 1 ∧
    lcBucketCount completedList (DataFrame.getCol ⟨["Status"], [[some " done "]]⟩ "Status") = 0 := by
  decide

/-- C7 amended: `kpi_area` and the query engine share the same four bucket
vocabularies and differ only in that `kpi_area` strips surrounding
whitespace; on status values with no surrounding whitespace the two report
equal bucket counts.  (The funnel's vocabulary genuinely differs, as the
counterexample shows.) -/
theorem kpi_localchat_bucket_agreement (vals : List Cell)
    (h : ∀ v ∈ vals, pyStrip (astypeStr v) = astypeStr v) :
    kpiBucketCount activeList vals = lcBucketCount activeList vals ∧
    kpiBucketCount inProgressList vals = lcBucketCount inProgressList vals ∧
    kpiBucketCount completedList vals = lcBucketCount completedList vals ∧
    kpiBucketCount pendingList vals = lcBucketCount pendingList vals := by
  have key : ∀ bucket : List String,
      kpiBucketCount bucket vals = lcBucketCount bucket vals := by
    intro bucket
    unfold kpiBucketCount lcBucketCount
    apply List.countP_congr
    intro v hv
    unfold kpiNormalize
    rw [h v hv]
  exact ⟨key _, key _, key _, key _⟩

/-- C7 witness: on trimmed status values the KPI and query-engine counts
coincide. -/
theorem kpi_localchat_bucket_agreement_witness :
    (∀ v ∈ ([some "Done", some "in progress", none] : List Cell),
      pyStrip (astypeStr v) = astypeStr v) ∧
    kpiBucketCount completedList [some "Done", some "in progress", none]
      = lcBucketCount completedList [some "Done", some "in progress", none] :=
  ⟨by decide, (kpi_localchat_bucket_agreement _ (by decide)).2.2.1⟩

/-!
## Claim C8 — "How many tickets are in progress?"
-/

/-- C8: against any table whose status column resolves and contains exactly
two in-progress-bucket rows, the query engine's answer to
`"How many tickets are in progress?"` contains the literal substring `"2"`. -/
theorem in_progress_count_answer (df : DataFrame) (c : String)
    (hc : (findRelevantColumns df.cols).status = some c)
    (hcnt : lcBucketCount inProgressList (df.getCol c) = 2) :
    ∃ a, analyze_data_for_chat 0 df "How many tickets are in progress?" = Except.ok a ∧
      containsSubB "2" a = true := by
  refine ⟨"There are **2** tickets currently in progress.", ?_, by decide⟩
  have h1 : anyTrigger (pyLower "How many tickets are in progress?")
      ["how many", "count", "total", "number of"] = true := by decide
  have h2 : (containsSubB "in progress" (pyLower "How many tickets are in progress?") ||
      containsSubB "progress" (pyLower "How many tickets are in progress?")) = true := by decide
  simp only [analyze_data_for_chat, countAnswer, h1, h2, hc, if_true]
  simp only [Option.map_some', Option.getD_some, hcnt]
  rfl

/-- C8 witness: a concrete five-row table with exactly two rows in the
in-progress bucket. -/
theorem in_progress_count_answer_witness :
    ((findRelevantColumns (DataFrame.cols
        ⟨["Status"], [[some "in progress"], [some "in progress"], [some "Done"], [some "Open"],
          [some "Pending"]]⟩)).status = some "Status" ∧
      lcBucketCount inProgressList (DataFrame.getCol
        ⟨["Status"], [[some "in progress"], [some "in progress"], [some "Done"], [some "Open"],
          [some "Pending"]]⟩ "Status") = 2) ∧
    ∃ a, analyze_data_for_chat 0
        ⟨["Status"], [[some "in progress"], [some "in progress"], [some "Done"], [some "Open"],
          [some "Pending"]]⟩
        "How many tickets are in progress?" = Except.ok a ∧ containsSubB "2" a = true :=
  ⟨⟨by decide, by decide⟩, in_progress_count_answer _ "Status" (by decide) (by decide)⟩

/-!
## Claim C10 — the query engine is total: no division by zero, no exception
-/

theorem pyDiv_ok (a b : Nat) (hb : b ≠ 0) : ∃ q, pyDiv a b = Except.ok q := by
  unfold pyDiv
  simp [hb]

theorem exceptOkBind {ε α β : Type} (a : α) (f : α → Except ε β) :
    (Except.ok a >>= f : Except ε β) = f a := rfl

theorem statusLine_ok (total : Nat) (p : String × Nat) :
    ∃ s, statusLine total p = Except.ok s := by
  unfold statusLine
  by_cases ht : total > 0
  · have hne : total ≠ 0 := Nat.pos_iff_ne_zero.mp ht
    obtain ⟨q, hq⟩ := pyDiv_ok p.2 total hne
    rw [if_pos ht, hq]
    exact ⟨_, rfl⟩
  · rw [if_neg ht]
    exact ⟨_, rfl⟩

theorem statusLines_ok (total : Nat) (l : List (String × Nat)) :
    ∃ s, statusLines total l = Except.ok s := by
  induction l with
  | nil => exact ⟨"", rfl⟩
  | cons p ps ih =>
    obtain ⟨s1, hs1⟩ := statusLine_ok total p
    obtain ⟨s2, hs2⟩ := ih
    refine ⟨s1 ++ s2, ?_⟩
    unfold statusLines
    rw [hs1, hs2]
    rfl

theorem statusAnswer_ok (df : DataFrame) (rc : RelCols) (total : Nat) :
    ∃ s, statusAnswer df rc total = Except.ok s := by
  obtain ⟨st, asg, pri, crd, due⟩ := rc
  cases st with
  | none => exact ⟨_, rfl⟩
  | some c =>
    obtain ⟨s, hs⟩ := statusLines_ok total (valueCounts (df.getCol c))
    simp only [statusAnswer, hs, exceptOkBind]
    exact ⟨_, rfl⟩

theorem summaryPctLine_ok (label : String) (count total : Nat) :
    ∃ s, summaryPctLine label count total = Except.ok s := by
  unfold summaryPctLine
  by_cases ht : total > 0
  · have hne : total ≠ 0 := Nat.pos_iff_ne_zero.mp ht
    obtain ⟨q, hq⟩ := pyDiv_ok count total hne
    rw [if_pos ht, hq]
    exact ⟨_, rfl⟩
  · rw [if_neg ht]
    exact ⟨_, rfl⟩

theorem summaryAnswer_ok (df : DataFrame) (rc : RelCols) (total : Nat) :
    ∃ s, summaryAnswer df rc total = Except.ok s := by
  obtain ⟨st, asg, pri, crd, due⟩ := rc
  cases st with
  | none => exact ⟨_, rfl⟩
  | some c =>
    obtain ⟨s1, h1⟩ := summaryPctLine_ok "In Progress"
      (lcBucketCount inProgressList (df.getCol c)) total
    obtain ⟨s2, h2⟩ := summaryPctLine_ok "Completed"
      (lcBucketCount completedList (df.getCol c)) total
    obtain ⟨s3, h3⟩ := summaryPctLine_ok "Pending"
      (lcBucketCount pendingList (df.getCol c)) total
    simp only [summaryAnswer, h1, h2, h3, exceptOkBind]
    exact ⟨_, rfl⟩

/-- C10: for every table (the empty one included) and every question string,
`analyze_data_for_chat` returns an answer string and never raises — in
particular every percentage division by the row count sits behind a
`total > 0` guard, so no `ZeroDivisionError` can occur. -/
theorem analyze_never_throws (now : Nat) (df : DataFrame) (q : String) :
    ∃ s, analyze_data_for_chat now df q = Except.ok s := by
  simp only [analyze_data_for_chat]
  split_ifs
  · exact ⟨_, rfl⟩
  · exact ⟨_, rfl⟩
  · exact statusAnswer_ok df _ _
  · exact ⟨_, rfl⟩
  · exact ⟨_, rfl⟩
  · exact summaryAnswer_ok df _ _
  · exact ⟨_, rfl⟩
  · exact ⟨_, rfl⟩

/-!
## Claims C3 and C4 — fetch totality and the all-strategies-fail behavior
-/

theorem xlsxStepE_none (env : LoadEnv) (urlO : Option String)
    (h : xlsxSucceeded env urlO = false) : xlsxStepE env urlO = Except.ok none := by
  unfold xlsxStepE
  unfold xlsxSucceeded at h
  cases hA : xlsxAttempted env urlO with
  | false => simp [hA]
  | true =>
    rw [hA] at h
    cases hx : env.xlsxOutcome with
    | ok df =>
      rw [hx] at h
      simp only [Bool.true_and] at h
      simp [hA, hx, h]
    | error e => simp [hA, hx]

theorem xlsxStepE_some (env : LoadEnv) (urlO : Option String)
    (h : xlsxSucceeded env urlO = true) :
    ∃ df0, env.xlsxOutcome = Except.ok df0 ∧
      xlsxStepE env urlO = Except.ok (some (df0, formatUTC env.now)) := by
  unfold xlsxSucceeded at h
  obtain ⟨hA, hrest⟩ := Bool.and_eq_true_iff.mp h
  cases hx : env.xlsxOutcome with
  | error e => rw [hx] at hrest; simp at hrest
  | ok df0 =>
    rw [hx] at hrest
    simp at hrest
    refine ⟨df0, rfl, ?_⟩
    unfold xlsxStepE
    simp [hA, hx, hrest]

theorem mainFetchStep_ok (env : LoadEnv) (keyO : Option String) (gidO : Option Nat) :
    ∃ df lbl, mainFetchStep env keyO gidO = Except.ok (df, lbl) ∧
      ((fetch_sheetBody env.toFetchEnv "" none).isErr = true → df = demo_df) := by
  unfold mainFetchStep fetch_sheetE
  rw [fetch_sheetBody_key_irrel env.toFetchEnv (resolvedKey env keyO) "" gidO none]
  cases hb : fetch_sheetBody env.toFetchEnv "" none with
  | ok p =>
    obtain ⟨df1, ts⟩ := p
    by_cases hrows : df1.rows.isEmpty
    · exact ⟨demo_df, "Demo", by simp [hrows]; rfl, fun _ => rfl⟩
    · refine ⟨df1, formatUTC ts, by simp [hrows]; rfl, ?_⟩
      intro hcontra
      simp [Except.isErr] at hcontra
  | error e =>
    exact ⟨demo_df, formatUTC env.toFetchEnv.now, rfl, fun _ => rfl⟩

/-- C3: the fetcher is total.  For every outcome environment (every
combination of import availability, network success, HTTP status and parse
result at every call site) and every input, `load_data_with_ui` returns a
table and a timestamp label and never lets an exception escape; and whenever
every remote strategy fails, the returned table is the built-in demo
dataset. -/
theorem load_data_total (env : LoadEnv) (keyO : Option String) (gidO : Option Nat)
    (urlO : Option String) :
    ∃ df lbl, load_data_with_uiE env keyO gidO urlO = Except.ok (df, lbl) ∧
      (allStrategiesFail env urlO = true → df = demo_df) := by
  cases hS : xlsxSucceeded env urlO with
  | true =>
    obtain ⟨df0, hx, hstep⟩ := xlsxStepE_some env urlO hS
    refine ⟨df0, formatUTC env.now, ?_, ?_⟩
    · unfold load_data_with_uiE
      rw [hstep]
      rfl
    · intro hfail
      unfold allStrategiesFail at hfail
      rw [hS] at hfail
      simp at hfail
  | false =>
    obtain ⟨df, lbl, hmain, himp⟩ := mainFetchStep_ok env keyO gidO
    refine ⟨df, lbl, ?_, ?_⟩
    · unfold load_data_with_uiE
      rw [xlsxStepE_none env urlO hS]
      exact hmain
    · intro hfail
      apply himp
      unfold allStrategiesFail at hfail
      exact (Bool.and_eq_true_iff.mp hfail).2

/-- C3 witness: the totality theorem at a concrete all-failing environment. -/
theorem load_data_total_witness :
    ∃ df lbl, load_data_with_uiE envFail none none none = Except.ok (df, lbl) ∧
      (allStrategiesFail envFail none = true → df = demo_df) :=
  load_data_total envFail none none none

/-- C4 counterexample: when every remote strategy fails, the code does return
the demo table, but the accompanying label is the formatted live fetch time
(`time.strftime` of `time.time()`), not a marker of non-live demo data — the
`"Demo"` label of `load_data_with_ui` is reached only when `fetch_sheet`
raises or returns an empty frame, and `fetch_sheet` swallows the failure
itself, returning the demo frame with a live timestamp. -/
theorem demo_label_counterexample :
    allStrategiesFail envFail none = true ∧
    load_data_with_uiE envFail none none none
      = Except.ok (demo_df, "1970-01-01 00:00:00 UTC") ∧
    ("1970-01-01 00:00:00 UTC" : String) ≠ "Demo" := by
  refine ⟨rfl, rfl, by decide⟩

/-- C4 amended: whenever all remote fetch strategies fail, the returned table
equals the built-in demo dataset, but the label is the formatted fetch
timestamp — a live time, not a demo marker. -/
theorem all_fail_returns_demo_live_label (env : LoadEnv) (keyO : Option String)
    (gidO : Option Nat) (urlO : Option String)
    (h : allStrategiesFail env urlO = true) :
    load_data_with_uiE env keyO gidO urlO = Except.ok (demo_df, formatUTC env.now) := by
  unfold allStrategiesFail at h
  obtain ⟨hS', hB⟩ := Bool.and_eq_true_iff.mp h
  have hS : xlsxSucceeded env urlO = false := by
    cases hsx : xlsxSucceeded env urlO
    · rfl
    · rw [hsx] at hS'; simp at hS'
  unfold load_data_with_uiE
  rw [xlsxStepE_none env urlO hS]
  show mainFetchStep env keyO gidO = _
  unfold mainFetchStep fetch_sheetE
  rw [fetch_sheetBody_key_irrel env.toFetchEnv (resolvedKey env keyO) "" gidO none]
  cases hb : fetch_sheetBody env.toFetchEnv "" none with
  | ok p =>
    rw [hb] at hB
    simp [Except.isErr] at hB
  | error e => rfl

/-- C4 witness: the amended statement at the concrete all-failing
environment. -/
theorem all_fail_returns_demo_live_label_witness :
    allStrategiesFail envFail none = true ∧
    load_data_with_uiE envFail none none none = Except.ok (demo_df, formatUTC envFail.now) :=
  ⟨rfl, all_fail_returns_demo_live_label envFail none none none rfl⟩

